import Mathlib

/-!
Shallow embedding of the `batch-generate-and-store-pdfs` Supabase edge
function of this repository (the Deno handler registered with `serve`,
together with its helpers `fetchDocumentWithRelations`, `generatePDF`,
`storePDF`, `updateDatabaseWithPdfUrl` and `processItem`).

External effects (the Supabase client, object storage, the missing
`pdf-adapter` / `shared-types` helper modules) are modelled by an explicit
database/storage state `DBState` threaded through the functions, plus an
environment `Env` of abstract parameters for the helper functions whose
source is not part of the repository snapshot.
-/

namespace BatchPdf

/-- Modelled from the spec: the `DocumentType` enum of the missing
`shared-types` module.  The spec names invoices, purchase orders and
estimates; `OTHER` covers any further enum value (the code has a
`default: Unsupported document type` branch).  The runtime string value of
each enum member is given by `DocumentType.str` below; the concrete
strings are irrelevant to every property proved here. -/
inductive DocumentType where
  | INVOICE
  | PURCHASE_ORDER
  | ESTIMATE
  | OTHER (s : String)
deriving DecidableEq, Repr

/-- Runtime string value of a `DocumentType` enum member. -/
def DocumentType.str : DocumentType → String
  | DocumentType.INVOICE => "invoice"
  | DocumentType.PURCHASE_ORDER => "purchaseOrder"
  | DocumentType.ESTIMATE => "estimate"
  | DocumentType.OTHER s => s

/-- Per-item result object `{id, type, success, error, url}` built by
`processItem` and by the handler's invalid-item / critical-error paths. -/
structure BatchPDFItemResult where
  id : String
  type : String
  success : Bool
  error : String
  url : Option String
deriving DecidableEq, Repr

/-- Batch-level response body `{results, errors?, success}`.  `errors` and
`success` are `Option`s because the empty-items early return of the
handler serialises a body that carries neither field. -/
structure BatchPDFResult where
  results : List BatchPDFItemResult
  errors : Option (List String)
  success : Option Bool
deriving DecidableEq, Repr

/-- JavaScript truthiness of an optional string (`undefined`/missing and
the empty string are falsy). -/
def truthy : Option String → Bool
  | none => false
  | some s => !s.isEmpty

/-- JavaScript `x || d` on an optional string: the fallback `d` is taken
when `x` is missing or falsy (empty). -/
def jsOr (o : Option String) (d : String) : String :=
  match o with
  | none => d
  | some s => if s.isEmpty then d else s

/-- A database row: an association list from column name to string value.
`getField` reads the first binding of a column. -/
abbrev Row := List (String × String)

/-- Read a column of a row. -/
def getField (r : Row) (f : String) : Option String :=
  (r.find? (fun p => p.1 == f)).map (·.2)

/-- Write a column of a row (a SQL `update` of that column). -/
def setField (r : Row) (f v : String) : Row :=
  if r.any (fun p => p.1 == f) then
    r.map (fun p => if p.1 == f then (f, v) else p)
  else
    r ++ [(f, v)]

/-- The external state: the database tables (keyed by table name) and the
object-storage bucket contents (path to stored bytes). -/
structure DBState where
  tables : List (String × List Row)
  uploads : List (String × String)
deriving DecidableEq, Repr

/-- All rows of a table (empty when the table is unknown). -/
def tableRows (st : DBState) (t : String) : List Row :=
  ((st.tables.find? (fun p => p.1 == t)).map (·.2)).getD []

/-- Rows of `table` whose column `field` equals `value`
(`.from(table).select(STAR).eq(field, value)`). -/
def selectEq (st : DBState) (table field value : String) : List Row :=
  (tableRows st table).filter (fun r => getField r field == some value)

/-- Apply `update SET field = value WHERE id = idVal` to a table of the
state. -/
def updateTable (st : DBState) (table idVal field value : String) : DBState :=
  { st with tables := st.tables.map (fun t =>
      if t.1 == table then
        (t.1, t.2.map (fun r =>
          if getField r "id" == some idVal then setField r field value else r))
      else t) }

/-- A `config.additionalRelations` entry of `documentTypeConfig`. -/
structure Relation where
  tableName : String
  referenceField : String

/-- Modelled from the spec: one entry of the missing `shared-types`
`documentTypeConfig` record: the document's table, the account reference
column, the optional line-items table and further relations. -/
structure Config where
  tableName : String
  accountRefField : String
  linesTableName : Option String
  additionalRelations : List Relation

/-- The malformed-or-not shape of one entry of the request's `items`
array: either not an object at all (includes `null`), or an object with
optional `id` and `type` string fields. -/
inductive ReqItem where
  | nonObject
  | obj (id : Option String) (type : Option String)
deriving DecidableEq, Repr

/-- The raw `id` field of an item (`item?.id`). -/
def rawId : ReqItem → Option String
  | ReqItem.nonObject => none
  | ReqItem.obj id _ => id

/-- The raw `type` field of an item (`item?.type`). -/
def rawTy : ReqItem → Option String
  | ReqItem.nonObject => none
  | ReqItem.obj _ ty => ty

/-- Embeds `item?.id || 'unknown'`. -/
def presentedId (item : ReqItem) : String := jsOr (rawId item) "unknown"

/-- Embeds `item?.type || 'unknown'`. -/
def presentedTy (item : ReqItem) : String := jsOr (rawTy item) "unknown"

/-- Negation of the handler's basic-structure check
`!item || typeof item !== 'object' || !item.id || !item.type`. -/
def itemValid : ReqItem → Bool
  | ReqItem.nonObject => false
  | ReqItem.obj id ty => truthy id && truthy ty

/-- The combined document data returned by `fetchDocumentWithRelations`:
the main row, the optional account row, the line items (each with its
optionally attached `gl_products` row) and the additional relations. -/
structure DocData where
  main : Row
  account : Option Row
  lines : List (Row × Option Row)
  additional : List (String × List Row)
deriving DecidableEq, Repr

/-- Modelled from the spec: the parameters of the embedding.  The
functions of the missing `pdf-adapter` / `shared-types` modules
(`normalizeDocumentType`, `documentTypeConfig`,
`adaptDataForSharedGenerator`, `generateFileName`, `getStorageFolderPath`,
`getPdfUrlField`) are abstract fields, `Except.error` marking a thrown
exception; every theorem below therefore holds for all behaviours of the
missing code.  The `...Fault` fields inject the possible failures of the
external Supabase service (a `some` message is a returned `error`), and
`criticalFault` injects an exception escaping `processItem` for an item,
exercising the handler's inner `catch`. -/
structure Env where
  normalize : String → Except String DocumentType
  documentTypeConfig : DocumentType → Option Config
  adaptData : DocumentType → DocData → Except String String
  generateFileName : DocumentType → DocData → Except String String
  getStorageFolderPath : DocumentType → String
  getPdfUrlField : DocumentType → String
  selectFault : String → String → String → Option String
  uploadFault : String → Option String
  publicUrl : String → Option String
  updateFault : String → Option String
  criticalFault : ReqItem → Option String

/-- Embeds `.select(STAR).eq(field, value).maybeSingle()`: a fault, or an error
when more than one row matches, or the optional single row. -/
def selectMaybeSingle (env : Env) (st : DBState) (table field value : String) :
    Except String (Option Row) :=
  match env.selectFault table field value with
  | some m => Except.error m
  | none =>
    match selectEq st table field value with
    | [] => Except.ok none
    | [r] => Except.ok (some r)
    | _ => Except.error "more than one row returned by maybeSingle"

/-- Embeds `.select(STAR).eq(field, value)` returning the full row list. -/
def selectList (env : Env) (st : DBState) (table field value : String) :
    Except String (List Row) :=
  match env.selectFault table field value with
  | some m => Except.error m
  | none => Except.ok (selectEq st table field value)

/-- The per-line body of the invoice/estimate branch: when the line has a
truthy `rowid_products`, fetch the product by `glide_row_id` and attach it
as `line.gl_products` when the fetch succeeds with a row. -/
def fetchLineProduct (env : Env) (st : DBState) (line : Row) : Row × Option Row :=
  if truthy (getField line "rowid_products") then
    match selectMaybeSingle env st "gl_products" "glide_row_id"
        ((getField line "rowid_products").getD "") with
    | Except.ok (some product) => (line, some product)
    | _ => (line, none)
  else (line, none)

/-- The `config.additionalRelations` loop: each relation's rows are
fetched by the reference field; a fetch error only warns and the relation
is skipped, otherwise the rows are recorded under the table name with its
`gl_` prefix removed. -/
def fetchAdditional (env : Env) (st : DBState) (grid : String)
    (rels : List Relation) : List (String × List Row) :=
  rels.filterMap (fun rel =>
    match selectList env st rel.tableName rel.referenceField grid with
    | Except.error _ => none
    | Except.ok relatedItems => some (rel.tableName.replace "gl_" "", relatedItems))

/-- Embedding of `fetchDocumentWithRelations`: fetch the main document row, then the
account, line items and additional relations following the Glidebase
pattern; any thrown error (missing config, fetch error, document not
found) is caught and yields `none`, while the secondary fetch errors only
warn and leave their part empty. -/
def fetchDocumentWithRelations (env : Env) (st : DBState)
    (documentType : DocumentType) (documentId : String) : Option DocData :=
  match env.documentTypeConfig documentType with
  | none => none
  | some config =>
    match selectMaybeSingle env st config.tableName "id" documentId with
    | Except.error _ => none
    | Except.ok none => none
    | Except.ok (some documentData) =>
      let accountRowId := getField documentData config.accountRefField
      let accountData : Option Row :=
        if truthy accountRowId then
          match selectMaybeSingle env st "gl_accounts" "glide_row_id"
              (accountRowId.getD "") with
          | Except.ok (some account) => some account
          | _ => none
        else none
      let grid := (getField documentData "glide_row_id").getD ""
      let lineItems : List (Row × Option Row) :=
        match config.linesTableName with
        | none => []
        | some linesTable =>
          if documentType = DocumentType.PURCHASE_ORDER then
            match selectList env st "gl_products" "rowid_purchase_orders" grid with
            | Except.error _ => []
            | Except.ok products => products.map (fun p => (p, none))
          else
            let lineRefField :=
              if documentType = DocumentType.INVOICE then "rowid_invoices"
              else "rowid_estimates"
            match selectList env st linesTable lineRefField grid with
            | Except.error _ => []
            | Except.ok lines => lines.map (fetchLineProduct env st)
      some { main := documentData, account := accountData,
             lines := lineItems, additional := fetchAdditional env st grid
               config.additionalRelations }

/-- The stubbed mock PDF generator: encodes a textual placeholder from the
document type tag and the (serialised) adapted data. -/
def mockGeneratePdf (ty : String) (dataJson : String) : String :=
  "PDF " ++ ty ++ " for " ++ dataJson

/-- Embedding of `generatePDF`: adapt the data, then dispatch on the normalized type to
the (mock) generator; an unsupported type or a thrown adapter error yields
`none`. -/
def generatePDF (env : Env) (normalizedType : DocumentType) (data : DocData) :
    Option String :=
  match env.adaptData normalizedType data with
  | Except.error _ => none
  | Except.ok adaptedData =>
    match normalizedType with
    | DocumentType.INVOICE => some (mockGeneratePdf "INVOICE" adaptedData)
    | DocumentType.PURCHASE_ORDER =>
        some (mockGeneratePdf "PURCHASE_ORDER" adaptedData)
    | DocumentType.ESTIMATE => some (mockGeneratePdf "ESTIMATE" adaptedData)
    | DocumentType.OTHER _ => none

/-- Embedding of `storePDF`: upload bytes to `folderPath/fileName` in the `documents`
bucket (upsert), then resolve the public URL; an upload error yields
`none` without a stored object, a missing or falsy public URL yields
`none` after the object was stored. -/
def storePDF (env : Env) (st : DBState) (pdfBytes fileName folderPath : String) :
    Option String × DBState :=
  let path := folderPath ++ "/" ++ fileName
  match env.uploadFault path with
  | some _ => (none, st)
  | none =>
    let st1 : DBState :=
      { st with uploads := (path, pdfBytes) :: st.uploads.filter (fun p => p.1 ≠ path) }
    match env.publicUrl path with
    | none => (none, st1)
    | some u => if u.isEmpty then (none, st1) else (some u, st1)

/-- Embedding of `updateDatabaseWithPdfUrl`: write the PDF URL into the document
type's URL column of the row with the given id; a missing config (thrown
property access) or an update error yields `false` with the state
unchanged. -/
def updateDatabaseWithPdfUrl (env : Env) (st : DBState)
    (documentType : DocumentType) (documentId pdfUrl : String) : Bool × DBState :=
  match env.documentTypeConfig documentType with
  | none => (false, st)
  | some config =>
    let pdfUrlField := env.getPdfUrlField documentType
    match env.updateFault config.tableName with
    | some _ => (false, st)
    | none => (true, updateTable st config.tableName documentId pdfUrlField pdfUrl)

/-- Embedding of `processItem`: the six-step per-item pipeline.  Starts from a default
failure result, normalizes the type, fetches the document with relations,
generates the PDF, derives file name and folder, stores the PDF and
updates the source row; each failed step returns the failure result
immediately and a thrown exception is caught with
`error.message || 'Unknown error'`. -/
def processItem (env : Env) (st : DBState) (itemId itemType : String) :
    BatchPDFItemResult × DBState :=
  let result : BatchPDFItemResult :=
    { id := itemId, type := itemType, success := false, error := "", url := none }
  match env.normalize itemType with
  | Except.error e => ({ result with error := jsOr (some e) "Unknown error" }, st)
  | Except.ok normalizedType =>
    let result := { result with type := normalizedType.str }
    match fetchDocumentWithRelations env st normalizedType itemId with
    | none =>
      ({ result with error :=
          "Failed to fetch document data for " ++ normalizedType.str ++ " " ++ itemId },
       st)
    | some documentData =>
      match generatePDF env normalizedType documentData with
      | none =>
        ({ result with error :=
            "Failed to generate PDF for " ++ normalizedType.str ++ " " ++ itemId },
         st)
      | some pdfBytes =>
        match env.generateFileName normalizedType documentData with
        | Except.error e => ({ result with error := jsOr (some e) "Unknown error" }, st)
        | Except.ok fileName =>
          let folderPath := env.getStorageFolderPath normalizedType
          match storePDF env st pdfBytes fileName folderPath with
          | (none, st1) =>
            ({ result with error :=
                "Failed to store PDF for " ++ normalizedType.str ++ " " ++ itemId },
             st1)
          | (some pdfUrl, st1) =>
            match updateDatabaseWithPdfUrl env st1 normalizedType itemId pdfUrl with
            | (false, st2) =>
              ({ result with error :=
                  "Failed to update database with PDF URL for "
                    ++ normalizedType.str ++ " " ++ itemId },
               st2)
            | (true, st2) =>
              ({ result with success := true, url := some pdfUrl }, st2)

/-- The body of one iteration of the handler's `for (const item of items)`
loop: the basic-structure validation with its invalid-item result, the
inner `catch` for a critical error thrown while processing the item, and
otherwise the call to `processItem` with the error-collection push.  It
returns the pushed result, the pushed error strings (possibly none) and
the new state.  When the guard holds, `presentedId item` / `presentedTy
item` are exactly the item's own `id` / `type` fields. -/
def processOne (env : Env) (st : DBState) (item : ReqItem) :
    BatchPDFItemResult × List String × DBState :=
  if !(itemValid item) then
    ({ id := presentedId item, type := presentedTy item, success := false,
       error := "Invalid item format (missing id or type)", url := none }, [], st)
  else
    match env.criticalFault item with
    | some m =>
      ({ id := presentedId item, type := presentedTy item, success := false,
         error := jsOr (some m) "Critical processing error", url := none },
       ["Critical error: " ++ m], st)
    | none =>
      let pr := processItem env st (presentedId item) (presentedTy item)
      (pr.1,
       if pr.1.success then []
       else ["Error processing " ++ pr.1.type ++ " " ++ pr.1.id ++ ": " ++ pr.1.error],
       pr.2)

/-- The handler's sequential per-item loop: results and error strings are
accumulated in input order while the state is threaded through. -/
def processLoop (env : Env) : DBState → List ReqItem →
    List BatchPDFItemResult × List String × DBState
  | st, [] => ([], [], st)
  | st, item :: rest =>
    let one := processOne env st item
    let restOut := processLoop env one.2.2 rest
    (one.1 :: restOut.1, one.2.1 ++ restOut.2.1, restOut.2.2)

/-- The serialised JSON body of the handler's `Response`: the `'ok'`
CORS-preflight text, a batch body, or the top-level failure body
`{error, success}` (with `success` always `false` where constructed). -/
inductive ResponseBody where
  | okText
  | batch (b : BatchPDFResult)
  | failure (error : String) (success : Bool)
deriving DecidableEq, Repr

/-- An HTTP response: status code and serialised body. -/
structure HttpResponse where
  status : Nat
  body : ResponseBody
deriving DecidableEq, Repr

/-- The aspects of the incoming `Request` the handler inspects: the
method, whether a body is present, and the outcome of
`(await req.json()).items`: a thrown parse error, or `none` when the
parsed body's `items` field is not an array, or the items array. -/
structure HttpRequest where
  method : String
  hasBody : Bool
  jsonItems : Except String (Option (List ReqItem))
deriving Repr

/-- The `serve` handler: CORS preflight, environment-variable check,
body / `items`-array validation (any throw is answered by the top-level
`catch` with status 500 and `{error: error.message || 'Unknown error',
success: false}`), the empty-items early return `{results: []}`, and the
main loop with the `{results, errors?, success}` response at status 200. -/
def handler (env : Env) (supabaseUrl serviceRoleKey : Option String)
    (st : DBState) (req : HttpRequest) : HttpResponse × DBState :=
  if req.method == "OPTIONS" then
    ({ status := 200, body := ResponseBody.okText }, st)
  else if !(truthy supabaseUrl) || !(truthy serviceRoleKey) then
    ({ status := 500, body := ResponseBody.failure
        "Missing environment variables SUPABASE_URL or SUPABASE_SERVICE_ROLE_KEY"
        false }, st)
  else if !req.hasBody then
    ({ status := 500, body := ResponseBody.failure "Request has no body." false }, st)
  else
    match req.jsonItems with
    | Except.error e =>
      ({ status := 500, body := ResponseBody.failure (jsOr (some e) "Unknown error") false }, st)
    | Except.ok none =>
      ({ status := 500, body := ResponseBody.failure
          "Request body must contain an \x27items\x27 array." false }, st)
    | Except.ok (some items) =>
      if items.isEmpty then
        ({ status := 200,
           body := ResponseBody.batch { results := [], errors := none, success := none } },
         st)
      else
        let out := processLoop env st items
        ({ status := 200,
           body := ResponseBody.batch
             { results := out.1,
               errors := if out.2.1.isEmpty then none else some out.2.1,
               success := some out.2.1.isEmpty } },
         out.2.2)

/-! Concrete instances used by the closed evaluations below. -/

/-- A concrete `documentTypeConfig` entry for invoices. -/
def cfg0 : Config :=
  { tableName := "gl_invoices", accountRefField := "rowid_accounts",
    linesTableName := some "gl_invoice_lines", additionalRelations := [] }

/-- A concrete, fault-free environment. -/
def env0 : Env :=
  { normalize := fun _ => Except.ok DocumentType.INVOICE
    documentTypeConfig := fun _ => some cfg0
    adaptData := fun _ _ => Except.ok "doc"
    generateFileName := fun _ _ => Except.ok "doc1.pdf"
    getStorageFolderPath := fun _ => "Invoices"
    getPdfUrlField := fun _ => "supabase_pdf_url"
    selectFault := fun _ _ _ => none
    uploadFault := fun _ => none
    publicUrl := fun p => some ("https://cdn.example/" ++ p)
    updateFault := fun _ => none
    criticalFault := fun _ => none }

/-- A concrete invoice row. -/
def row0 : Row := [("id", "doc1"), ("glide_row_id", "g1")]

/-- A concrete database state holding the single invoice `doc1`. -/
def st0 : DBState := { tables := [("gl_invoices", [row0])], uploads := [] }

/-- A request whose `items` array holds a single malformed (non-object)
item. -/
def req1 : HttpRequest :=
  { method := "POST", hasBody := true,
    jsonItems := Except.ok (some [ReqItem.nonObject]) }

/-- A request with an empty `items` array. -/
def reqEmpty : HttpRequest :=
  { method := "POST", hasBody := true, jsonItems := Except.ok (some []) }

/-- A request with a single well-formed item referencing `doc1`. -/
def reqOne : HttpRequest :=
  { method := "POST", hasBody := true,
    jsonItems := Except.ok (some [ReqItem.obj (some "doc1") (some "invoice")]) }

/-- A request carrying no body. -/
def reqNoBody : HttpRequest :=
  { method := "POST", hasBody := false, jsonItems := Except.ok none }

/-- The five pipeline steps of `processItem` (result construction always
follows). -/
inductive Step where
  | normalize
  | fetch
  | generate
  | store
  | update
deriving DecidableEq, Repr

/-- The fixed order in which `processItem` attempts its steps. -/
def pipelineOrder : List Step :=
  [Step.normalize, Step.fetch, Step.generate, Step.store, Step.update]

/-- Copy of `processItem` instrumented with the list of steps it attempted, in
order (the file-name/folder derivation between `generate` and `store` is
not counted as a separate step).  Identical to `processItem` branch for
branch. -/
def processItemSteps (env : Env) (st : DBState) (itemId itemType : String) :
    (BatchPDFItemResult × DBState) × List Step :=
  let result : BatchPDFItemResult :=
    { id := itemId, type := itemType, success := false, error := "", url := none }
  match env.normalize itemType with
  | Except.error e =>
    (({ result with error := jsOr (some e) "Unknown error" }, st), [Step.normalize])
  | Except.ok normalizedType =>
    let result := { result with type := normalizedType.str }
    match fetchDocumentWithRelations env st normalizedType itemId with
    | none =>
      (({ result with error :=
           "Failed to fetch document data for " ++ normalizedType.str ++ " " ++ itemId },
        st), [Step.normalize, Step.fetch])
    | some documentData =>
      match generatePDF env normalizedType documentData with
      | none =>
        (({ result with error :=
             "Failed to generate PDF for " ++ normalizedType.str ++ " " ++ itemId },
          st), [Step.normalize, Step.fetch, Step.generate])
      | some pdfBytes =>
        match env.generateFileName normalizedType documentData with
        | Except.error e =>
          (({ result with error := jsOr (some e) "Unknown error" }, st),
           [Step.normalize, Step.fetch, Step.generate])
        | Except.ok fileName =>
          let folderPath := env.getStorageFolderPath normalizedType
          match storePDF env st pdfBytes fileName folderPath with
          | (none, st1) =>
            (({ result with error :=
                 "Failed to store PDF for " ++ normalizedType.str ++ " " ++ itemId },
              st1), [Step.normalize, Step.fetch, Step.generate, Step.store])
          | (some pdfUrl, st1) =>
            match updateDatabaseWithPdfUrl env st1 normalizedType itemId pdfUrl with
            | (false, st2) =>
              (({ result with error :=
                   "Failed to update database with PDF URL for "
                     ++ normalizedType.str ++ " " ++ itemId },
                st2), [Step.normalize, Step.fetch, Step.generate, Step.store, Step.update])
            | (true, st2) =>
              (({ result with success := true, url := some pdfUrl }, st2),
               [Step.normalize, Step.fetch, Step.generate, Step.store, Step.update])

/-! Helper lemmas. -/

/-- A string whose `isEmpty` test is `false` is not the empty string. -/
lemma ne_empty_of_isEmpty_eq_false {s : String} (h : s.isEmpty = false) : s ≠ "" := by
  intro hc
  rw [hc] at h
  exact absurd h (by decide)

/-- The function `jsOr` never returns the empty string when its fallback is non-empty. -/
lemma jsOr_ne_empty (o : Option String) (d : String) (hd : d ≠ "") : jsOr o d ≠ "" := by
  cases o with
  | none => simpa [jsOr] using hd
  | some s =>
    by_cases hs : s.isEmpty
    · simpa [jsOr, hs] using hd
    · simp only [jsOr, Bool.not_eq_true] at hs ⊢
      rw [if_neg (by simp [hs])]
      exact ne_empty_of_isEmpty_eq_false hs

/-- Appending to a non-empty string yields a non-empty string. -/
lemma append_ne_empty_left (a b : String) (h : a ≠ "") : a ++ b ≠ "" := by
  intro hc
  have hd := congrArg String.data hc
  rw [String.data_append] at hd
  have ha : a.data = [] := (List.append_eq_nil.mp hd).1
  exact h (String.ext (by simp [ha]))

/-- The identity, success/url and failure/error shape of every branch of
`processItem`: the result keeps the input id, it succeeds exactly when a
URL was attached, and every failing branch sets a non-empty message. -/
lemma processItem_spec (env : Env) (st : DBState) (id ty : String) :
    (processItem env st id ty).1.id = id ∧
    ((processItem env st id ty).1.success = true ↔
      (processItem env st id ty).1.url ≠ none) ∧
    ((processItem env st id ty).1.success = false →
      (processItem env st id ty).1.error ≠ "") := by
  cases hn : env.normalize ty with
  | error e =>
    refine ⟨by simp [processItem, hn], by simp [processItem, hn], ?_⟩
    intro _
    simpa [processItem, hn] using jsOr_ne_empty (some e) "Unknown error" (by decide)
  | ok nt =>
    cases hf : fetchDocumentWithRelations env st nt id with
    | none =>
      refine ⟨by simp [processItem, hn, hf], by simp [processItem, hn, hf], ?_⟩
      intro _
      simpa [processItem, hn, hf] using
        append_ne_empty_left _ id
          (append_ne_empty_left _ " "
            (append_ne_empty_left "Failed to fetch document data for " nt.str (by decide)))
    | some d =>
      cases hg : generatePDF env nt d with
      | none =>
        refine ⟨by simp [processItem, hn, hf, hg], by simp [processItem, hn, hf, hg], ?_⟩
        intro _
        simpa [processItem, hn, hf, hg] using
          append_ne_empty_left _ id
            (append_ne_empty_left _ " "
              (append_ne_empty_left "Failed to generate PDF for " nt.str (by decide)))
      | some pdf =>
        cases hfn : env.generateFileName nt d with
        | error e =>
          refine ⟨by simp [processItem, hn, hf, hg, hfn],
                  by simp [processItem, hn, hf, hg, hfn], ?_⟩
          intro _
          simpa [processItem, hn, hf, hg, hfn] using
            jsOr_ne_empty (some e) "Unknown error" (by decide)
        | ok fn =>
          rcases hs : storePDF env st pdf fn (env.getStorageFolderPath nt) with ⟨o, st1⟩
          cases o with
          | none =>
            refine ⟨by simp [processItem, hn, hf, hg, hfn, hs],
                    by simp [processItem, hn, hf, hg, hfn, hs], ?_⟩
            intro _
            simpa [processItem, hn, hf, hg, hfn, hs] using
              append_ne_empty_left _ id
                (append_ne_empty_left _ " "
                  (append_ne_empty_left "Failed to store PDF for " nt.str (by decide)))
          | some u =>
            rcases hu : updateDatabaseWithPdfUrl env st1 nt id u with ⟨b, st2⟩
            cases b with
            | false =>
              refine ⟨by simp [processItem, hn, hf, hg, hfn, hs, hu],
                      by simp [processItem, hn, hf, hg, hfn, hs, hu], ?_⟩
              intro _
              simpa [processItem, hn, hf, hg, hfn, hs, hu] using
                append_ne_empty_left _ id
                  (append_ne_empty_left _ " "
                    (append_ne_empty_left "Failed to update database with PDF URL for "
                      nt.str (by decide)))
            | true =>
              refine ⟨by simp [processItem, hn, hf, hg, hfn, hs, hu],
                      by simp [processItem, hn, hf, hg, hfn, hs, hu], ?_⟩
              intro hc
              simp [processItem, hn, hf, hg, hfn, hs, hu] at hc

/-- Setting a column makes `getField` of that column return the new
value. -/
lemma getField_setField (r : Row) (f v : String) :
    getField (setField r f v) f = some v := by
  unfold setField
  by_cases h : r.any (fun p => p.1 == f)
  · rw [if_pos h]
    induction r with
    | nil => simp at h
    | cons p rest ih =>
      by_cases hp : p.1 == f
      · simp [getField, List.find?, hp]
      · have hrest : rest.any (fun q => q.1 == f) := by
          simpa [List.any_cons, hp] using h
        simpa [getField, List.find?, hp] using ih hrest
  · rw [if_neg h]
    have hnone : r.find? (fun p => p.1 == f) = none := by
      rw [List.find?_eq_none]
      simp only [List.any_eq_true, not_exists, not_and] at h
      intro x hx
      exact h x hx
    simp [getField, List.find?_append, hnone, List.find?]

/-- After `updateTable st table idVal field value`, every row of `table`
whose `id` column equals `idVal` carries `value` in the updated column. -/
lemma tableRows_updateTable (st : DBState) (table idVal field value : String) :
    ∀ row ∈ tableRows (updateTable st table idVal field value) table,
      getField row "id" = some idVal → getField row field = some value := by
  intro row hrow hid
  have haux : ∀ ts : List (String × List Row),
      (ts.map (fun t => if t.1 == table then
          (t.1, t.2.map (fun r =>
            if getField r "id" == some idVal then setField r field value else r))
        else t)).find? (fun p => p.1 == table)
      = (ts.find? (fun p => p.1 == table)).map (fun t =>
          (t.1, t.2.map (fun r =>
            if getField r "id" == some idVal then setField r field value else r))) := by
    intro ts
    induction ts with
    | nil => rfl
    | cons t rest ih =>
      simp only [List.map_cons]
      by_cases hc : t.1 = table
      · have hb : (t.1 == table) = true := by simp [hc]
        rw [if_pos hb]
        simp only [List.find?_cons, hb]
        rfl
      · have hb : (t.1 == table) = false := by simp [hc]
        rw [if_neg (by simp [hb])]
        simp only [List.find?_cons, hb]
        exact ih
  rw [updateTable] at hrow
  unfold tableRows at hrow
  simp only at hrow
  rw [haux st.tables] at hrow
  cases hfind : st.tables.find? (fun p => p.1 == table) with
  | none => rw [hfind] at hrow; simp at hrow
  | some t =>
    rw [hfind] at hrow
    simp only [Option.map_some, Option.map, Option.getD] at hrow
    rcases List.mem_map.mp hrow with ⟨r0, _, hr0⟩
    by_cases hmatch : getField r0 "id" == some idVal
    · rw [if_pos hmatch] at hr0
      rw [← hr0]
      exact getField_setField r0 field value
    · rw [if_neg hmatch] at hr0
      rw [← hr0] at hid
      exact absurd hid (by simpa using hmatch)

/-- Inversion of a successful `storePDF`: the upload did not fault, the
object is the head of the stored bucket, and the returned URL is the
truthy public URL of the stored path. -/
lemma storePDF_some_inv (env : Env) (st : DBState) (pdfBytes fileName folderPath u : String)
    (st1 : DBState)
    (h : storePDF env st pdfBytes fileName folderPath = (some u, st1)) :
    env.uploadFault (folderPath ++ "/" ++ fileName) = none ∧
    st1.uploads = (folderPath ++ "/" ++ fileName, pdfBytes) ::
      st.uploads.filter (fun p => p.1 ≠ folderPath ++ "/" ++ fileName) ∧
    st1.tables = st.tables ∧
    env.publicUrl (folderPath ++ "/" ++ fileName) = some u ∧
    u.isEmpty = false := by
  cases hf : env.uploadFault (folderPath ++ "/" ++ fileName) with
  | some m => simp [storePDF, hf] at h
  | none =>
    cases hp : env.publicUrl (folderPath ++ "/" ++ fileName) with
    | none => simp [storePDF, hf, hp] at h
    | some u0 =>
      by_cases he : u0.isEmpty = true
      · simp [storePDF, hf, hp, he] at h
      · rw [storePDF] at h
        simp only [hf, hp] at h
        rw [if_neg he] at h
        rw [Prod.mk.injEq] at h
        obtain ⟨hu, hst⟩ := h
        obtain rfl := Option.some.inj hu
        subst hst
        exact ⟨rfl, rfl, rfl, rfl, by simpa using he⟩

/-- Inversion of a successful `updateDatabaseWithPdfUrl`: a config
exists, the update did not fault, and the new state is the row update. -/
lemma updateDatabase_true_inv (env : Env) (st : DBState) (nt : DocumentType)
    (documentId pdfUrl : String) (st2 : DBState)
    (h : updateDatabaseWithPdfUrl env st nt documentId pdfUrl = (true, st2)) :
    ∃ config, env.documentTypeConfig nt = some config ∧
      env.updateFault config.tableName = none ∧
      st2 = updateTable st config.tableName documentId (env.getPdfUrlField nt) pdfUrl := by
  unfold updateDatabaseWithPdfUrl at h
  cases hc : env.documentTypeConfig nt with
  | none => rw [hc] at h; simp at h
  | some config =>
    rw [hc] at h
    cases hu : env.updateFault config.tableName with
    | some m => simp only [hu] at h; simp at h
    | none =>
      simp only [hu] at h
      exact ⟨config, rfl, hu, ((Prod.mk.injEq _ _ _ _).mp h).2.symm⟩

/-- The function `updateTable` leaves the storage bucket unchanged. -/
lemma updateTable_uploads (st : DBState) (table idVal field value : String) :
    (updateTable st table idVal field value).uploads = st.uploads := rfl

/-- Shape facts of one loop iteration: the pushed result carries the
item's presented id, satisfies the success/url and failure/error
invariants, and an error string is pushed exactly when an item that
passed the basic-structure validation ended in a failing result. -/
lemma processOne_spec (env : Env) (st : DBState) (item : ReqItem) :
    (processOne env st item).1.id = presentedId item ∧
    ((processOne env st item).1.success = true ↔
      (processOne env st item).1.url ≠ none) ∧
    ((processOne env st item).1.success = false →
      (processOne env st item).1.error ≠ "") ∧
    ((processOne env st item).2.1 = [] ↔
      (itemValid item = true → (processOne env st item).1.success = true)) := by
  by_cases hv : itemValid item = true
  · cases hcf : env.criticalFault item with
    | some m =>
      refine ⟨by simp [processOne, hv, hcf], by simp [processOne, hv, hcf], ?_, ?_⟩
      · intro _
        simpa [processOne, hv, hcf] using
          jsOr_ne_empty (some m) "Critical processing error" (by decide)
      · simp [processOne, hv, hcf]
    | none =>
      have hs := processItem_spec env st (presentedId item) (presentedTy item)
      refine ⟨by simpa [processOne, hv, hcf] using hs.1,
              by simpa [processOne, hv, hcf] using hs.2.1,
              by simpa [processOne, hv, hcf] using hs.2.2, ?_⟩
      cases hsucc : (processItem env st (presentedId item) (presentedTy item)).1.success with
      | true => simp [processOne, hv, hcf, hsucc]
      | false => simp [processOne, hv, hcf, hsucc]
  · have hv' : itemValid item = false := by simpa using hv
    refine ⟨by simp [processOne, hv'], by simp [processOne, hv'], ?_, ?_⟩
    · intro _
      simp [processOne, hv']
    · simp [processOne, hv']

/-- The loop produces one result per item. -/
lemma processLoop_length (env : Env) :
    ∀ (items : List ReqItem) (st : DBState),
      (processLoop env st items).1.length = items.length := by
  intro items
  induction items with
  | nil => intro st; rfl
  | cons item rest ih => intro st; simp [processLoop, ih]

/-- The `i`-th result of the loop corresponds to the `i`-th input item:
it carries that item's presented id and satisfies the result
invariants. -/
lemma processLoop_get? (env : Env) :
    ∀ (items : List ReqItem) (st : DBState) (i : Nat) (item : ReqItem),
      items.get? i = some item →
      ∃ r, (processLoop env st items).1.get? i = some r ∧
        r.id = presentedId item ∧
        (r.success = true ↔ r.url ≠ none) ∧
        (r.success = false → r.error ≠ "") := by
  intro items
  induction items with
  | nil => intro st i item h; simp at h
  | cons it rest ih =>
    intro st i item h
    cases i with
    | zero =>
      obtain rfl : it = item := by simpa using h
      exact ⟨(processOne env st it).1, by simp [processLoop],
        (processOne_spec env st it).1, (processOne_spec env st it).2.1,
        (processOne_spec env st it).2.2.1⟩
    | succ n =>
      have h' : rest.get? n = some item := by simpa using h
      obtain ⟨r, hr, hid, hiff, herr⟩ := ih (processOne env st it).2.2 n item h'
      exact ⟨r, by simpa [processLoop] using hr, hid, hiff, herr⟩

/-- Every result produced by the loop satisfies the success/url and
failure/error invariants. -/
lemma processLoop_mem_inv (env : Env) :
    ∀ (items : List ReqItem) (st : DBState) (r : BatchPDFItemResult),
      r ∈ (processLoop env st items).1 →
      (r.success = true ↔ r.url ≠ none) ∧ (r.success = false → r.error ≠ "") := by
  intro items
  induction items with
  | nil => intro st r h; simp [processLoop] at h
  | cons it rest ih =>
    intro st r h
    simp only [processLoop] at h
    rcases List.mem_cons.mp h with h1 | h2
    · subst h1
      exact ⟨(processOne_spec env st it).2.1, (processOne_spec env st it).2.2.1⟩
    · exact ih _ r h2

/-- The loop's error list is empty exactly when every item that passed
the basic-structure validation produced a successful result. -/
lemma processLoop_errors_iff (env : Env) :
    ∀ (items : List ReqItem) (st : DBState),
      ((processLoop env st items).2.1 = [] ↔
        ∀ p ∈ items.zip (processLoop env st items).1,
          itemValid p.1 = true → p.2.success = true) := by
  intro items
  induction items with
  | nil => intro st; simp [processLoop]
  | cons it rest ih =>
    intro st
    have hone := (processOne_spec env st it).2.2.2
    simp only [processLoop, List.zip_cons_cons, List.append_eq_nil,
      List.forall_mem_cons]
    exact ⟨fun h => ⟨hone.mp h.1, (ih _).mp h.2⟩,
           fun h => ⟨hone.mpr h.1, (ih _).mpr h.2⟩⟩

/-! Claim theorems. -/

/-- C4: when the document id cannot be resolved to a row
(`fetchDocumentWithRelations` yields no document), `processItem` returns
a failure result whose error message names the normalized document type
and the id, and performs no writes at all: the returned state is exactly
the input state, so neither a storage upload nor a source-row update
happened for that item. -/
theorem c4_fetch_failure_no_writes (env : Env) (st : DBState) (id ty : String)
    (nt : DocumentType) (hn : env.normalize ty = Except.ok nt)
    (hf : fetchDocumentWithRelations env st nt id = none) :
    processItem env st id ty =
      ({ id := id, type := nt.str, success := false,
         error := "Failed to fetch document data for " ++ nt.str ++ " " ++ id,
         url := none }, st) := by
  simp [processItem, hn, hf]

/-- Closed instance of `c4_fetch_failure_no_writes` at a concrete
environment and state in which the id `missing` resolves to no row. -/
theorem c4_witness :
    processItem env0 st0 "missing" "invoice" =
      ({ id := "missing", type := "invoice", success := false,
         error := "Failed to fetch document data for invoice missing",
         url := none }, st0) :=
  c4_fetch_failure_no_writes env0 st0 "missing" "invoice" DocumentType.INVOICE rfl rfl

/-- C3: when `processItem` succeeds, the result's url is a non-null
public URL of the PDF object stored in the bucket, and in the returned
state every row of the document's table whose id column matches the item
carries that same URL in the document type's PDF-URL column. -/
theorem c3_success_updates_row (env : Env) (st : DBState) (id ty : String)
    (h : (processItem env st id ty).1.success = true) :
    ∃ nt config u,
      env.normalize ty = Except.ok nt ∧
      env.documentTypeConfig nt = some config ∧
      (processItem env st id ty).1.url = some u ∧
      (∀ row ∈ tableRows (processItem env st id ty).2 config.tableName,
        getField row "id" = some id →
          getField row (env.getPdfUrlField nt) = some u) ∧
      ∃ path bytes, (path, bytes) ∈ ((processItem env st id ty).2).uploads ∧
        env.publicUrl path = some u := by
  cases hn : env.normalize ty with
  | error e => simp [processItem, hn] at h
  | ok nt =>
    cases hf : fetchDocumentWithRelations env st nt id with
    | none => simp [processItem, hn, hf] at h
    | some d =>
      cases hg : generatePDF env nt d with
      | none => simp [processItem, hn, hf, hg] at h
      | some pdf =>
        cases hfn : env.generateFileName nt d with
        | error e => simp [processItem, hn, hf, hg, hfn] at h
        | ok fn =>
          rcases hsp : storePDF env st pdf fn (env.getStorageFolderPath nt) with ⟨o, st1⟩
          cases o with
          | none => simp [processItem, hn, hf, hg, hfn, hsp] at h
          | some u =>
            rcases hup : updateDatabaseWithPdfUrl env st1 nt id u with ⟨b, st2⟩
            cases b with
            | false => simp [processItem, hn, hf, hg, hfn, hsp, hup] at h
            | true =>
              obtain ⟨hfault, huploads, htables, hpub, hne⟩ :=
                storePDF_some_inv env st pdf fn (env.getStorageFolderPath nt) u st1 hsp
              obtain ⟨config, hcfg, hflt, hst2⟩ :=
                updateDatabase_true_inv env st1 nt id u st2 hup
              have hurl : (processItem env st id ty).1.url = some u := by
                simp [processItem, hn, hf, hg, hfn, hsp, hup]
              have hst : (processItem env st id ty).2 = st2 := by
                simp [processItem, hn, hf, hg, hfn, hsp, hup]
              refine ⟨nt, config, u, rfl, hcfg, hurl, ?_, ?_⟩
              · rw [hst, hst2]
                exact tableRows_updateTable st1 config.tableName id
                  (env.getPdfUrlField nt) u
              · refine ⟨env.getStorageFolderPath nt ++ "/" ++ fn, pdf, ?_, hpub⟩
                rw [hst, hst2, updateTable_uploads, huploads]
                exact List.mem_cons_self _ _

/-- Closed instance of `c3_success_updates_row` at a concrete fault-free
environment and a state holding the invoice `doc1`. -/
theorem c3_witness :
    ∃ nt config u,
      env0.normalize "invoice" = Except.ok nt ∧
      env0.documentTypeConfig nt = some config ∧
      (processItem env0 st0 "doc1" "invoice").1.url = some u ∧
      (∀ row ∈ tableRows (processItem env0 st0 "doc1" "invoice").2 config.tableName,
        getField row "id" = some "doc1" →
          getField row (env0.getPdfUrlField nt) = some u) ∧
      ∃ path bytes, (path, bytes) ∈ ((processItem env0 st0 "doc1" "invoice").2).uploads ∧
        env0.publicUrl path = some u :=
  c3_success_updates_row env0 st0 "doc1" "invoice" (by decide)

/-- C8: `processItem` attempts its pipeline steps in the fixed order
normalize, fetch, generate, store, update (then result construction); the
attempted steps always form a prefix of that order, so a failing step
stops the pipeline and no later step runs, and a successful result means
all five steps ran.  The instrumented `processItemSteps` agrees with
`processItem`. -/
theorem c8_pipeline_order (env : Env) (st : DBState) (id ty : String) :
    (processItemSteps env st id ty).1 = processItem env st id ty ∧
    ∃ k, k ≤ 5 ∧ (processItemSteps env st id ty).2 = pipelineOrder.take k ∧
      ((processItem env st id ty).1.success = true → k = 5) := by
  cases hn : env.normalize ty with
  | error e =>
    refine ⟨by simp [processItemSteps, processItem, hn], 1, by norm_num,
      by simp [processItemSteps, hn]; decide, ?_⟩
    intro h
    simp [processItem, hn] at h
  | ok nt =>
    cases hf : fetchDocumentWithRelations env st nt id with
    | none =>
      refine ⟨by simp [processItemSteps, processItem, hn, hf], 2, by norm_num,
        by simp [processItemSteps, hn, hf]; decide, ?_⟩
      intro h
      simp [processItem, hn, hf] at h
    | some d =>
      cases hg : generatePDF env nt d with
      | none =>
        refine ⟨by simp [processItemSteps, processItem, hn, hf, hg], 3, by norm_num,
          by simp [processItemSteps, hn, hf, hg]; decide, ?_⟩
        intro h
        simp [processItem, hn, hf, hg] at h
      | some pdf =>
        cases hfn : env.generateFileName nt d with
        | error e =>
          refine ⟨by simp [processItemSteps, processItem, hn, hf, hg, hfn], 3, by norm_num,
            by simp [processItemSteps, hn, hf, hg, hfn]; decide, ?_⟩
          intro h
          simp [processItem, hn, hf, hg, hfn] at h
        | ok fn =>
          rcases hsp : storePDF env st pdf fn (env.getStorageFolderPath nt) with ⟨o, st1⟩
          cases o with
          | none =>
            refine ⟨by simp [processItemSteps, processItem, hn, hf, hg, hfn, hsp],
              4, by norm_num,
              by simp [processItemSteps, hn, hf, hg, hfn, hsp]; decide, ?_⟩
            intro h
            simp [processItem, hn, hf, hg, hfn, hsp] at h
          | some u =>
            rcases hup : updateDatabaseWithPdfUrl env st1 nt id u with ⟨b, st2⟩
            cases b with
            | false =>
              refine ⟨by simp [processItemSteps, processItem, hn, hf, hg, hfn, hsp, hup],
                5, le_refl 5,
                by simp [processItemSteps, hn, hf, hg, hfn, hsp, hup]; decide,
                fun _ => rfl⟩
            | true =>
              refine ⟨by simp [processItemSteps, processItem, hn, hf, hg, hfn, hsp, hup],
                5, le_refl 5,
                by simp [processItemSteps, hn, hf, hg, hfn, hsp, hup]; decide,
                fun _ => rfl⟩

/-- C5: an item that fails the basic-structure validation yields exactly
the `Invalid item format` failure result with `url` null and id/type
taken from the item when truthy (`unknown` otherwise); the loop neither
throws nor stops: the remaining items are processed from an unchanged
state and nothing is pushed to the error-string list for the invalid
item. -/
theorem c5_invalid_item_isolated (env : Env) (st : DBState) (item : ReqItem)
    (rest : List ReqItem) (h : itemValid item = false) :
    processLoop env st (item :: rest) =
      ({ id := presentedId item, type := presentedTy item, success := false,
         error := "Invalid item format (missing id or type)", url := none }
         :: (processLoop env st rest).1,
       (processLoop env st rest).2.1, (processLoop env st rest).2.2) := by
  simp [processLoop, processOne, h]

/-- Closed instance of `c5_invalid_item_isolated` on a batch whose only
item is not an object. -/
theorem c5_witness :
    processLoop env0 st0 (ReqItem.nonObject :: []) =
      ({ id := "unknown", type := "unknown", success := false,
         error := "Invalid item format (missing id or type)", url := none }
         :: (processLoop env0 st0 []).1,
       (processLoop env0 st0 []).2.1, (processLoop env0 st0 []).2.2) :=
  c5_invalid_item_isolated env0 st0 ReqItem.nonObject [] rfl

/-- C6 (counterexample): on an empty `items` array the handler's batch
body is `{results: []}` with no `errors` and, crucially, no `success`
field at all — so the response does not carry `success` indicating
success as the claim states. -/
theorem c6_counterexample :
    (handler env0 (some "u") (some "k") st0 reqEmpty).1.body =
      ResponseBody.batch { results := [], errors := none, success := none } ∧
    ({ results := [], errors := none, success := none } : BatchPDFResult).success
      ≠ some true := ⟨rfl, by decide⟩

/-- C6 (amended): an empty `items` array yields a status-200 response
whose body is exactly `{results: []}` — results empty, no `errors` field
and no batch-level `success` field — and no item is processed, the state
being returned unchanged. -/
theorem c6_amended_empty_items (env : Env) (url key : Option String)
    (st : DBState) (req : HttpRequest)
    (hm : (req.method == "OPTIONS") = false) (hu : truthy url = true)
    (hk : truthy key = true) (hb : req.hasBody = true)
    (hi : req.jsonItems = Except.ok (some [])) :
    handler env url key st req =
      ({ status := 200,
         body := ResponseBody.batch { results := [], errors := none, success := none } },
       st) := by
  simp [handler, hm, hu, hk, hb, hi]

/-- Closed instance of `c6_amended_empty_items`. -/
theorem c6_witness :
    handler env0 (some "u") (some "k") st0 reqEmpty =
      ({ status := 200,
         body := ResponseBody.batch { results := [], errors := none, success := none } },
       st0) :=
  c6_amended_empty_items env0 (some "u") (some "k") st0 reqEmpty rfl rfl rfl rfl rfl

/-- C7: every top-level failure — a missing (or falsy) `SUPABASE_URL` or
`SUPABASE_SERVICE_ROLE_KEY`, a missing request body, a body whose JSON
parse throws, or a body whose `items` field is not an array — is
answered by a single status-500 failure response `{error, success:
false}` carrying the error message, with no per-item results and the
state unchanged. -/
theorem c7_top_level_failures (env : Env) (url key : Option String)
    (st : DBState) (req : HttpRequest)
    (hm : (req.method == "OPTIONS") = false) :
    ((truthy url = false ∨ truthy key = false) →
      handler env url key st req =
        ({ status := 500, body := ResponseBody.failure
            "Missing environment variables SUPABASE_URL or SUPABASE_SERVICE_ROLE_KEY"
            false }, st)) ∧
    (truthy url = true → truthy key = true → req.hasBody = false →
      handler env url key st req =
        ({ status := 500, body := ResponseBody.failure "Request has no body." false },
         st)) ∧
    (∀ e, truthy url = true → truthy key = true → req.hasBody = true →
      req.jsonItems = Except.error e →
      handler env url key st req =
        ({ status := 500,
           body := ResponseBody.failure (jsOr (some e) "Unknown error") false }, st)) ∧
    (truthy url = true → truthy key = true → req.hasBody = true →
      req.jsonItems = Except.ok none →
      handler env url key st req =
        ({ status := 500, body := ResponseBody.failure
            "Request body must contain an \x27items\x27 array." false }, st)) := by
  refine ⟨?_, ?_, ?_, ?_⟩
  · rintro (h | h) <;> simp [handler, hm, h]
  · intro hu hk hb
    simp [handler, hm, hu, hk, hb]
  · intro e hu hk hb hj
    simp [handler, hm, hu, hk, hb, hj]
  · intro hu hk hb hj
    simp [handler, hm, hu, hk, hb, hj]

/-- Closed instance of `c7_top_level_failures`: a request without a body
is answered by the single status-500 failure response. -/
theorem c7_witness :
    handler env0 (some "u") (some "k") st0 reqNoBody =
      ({ status := 500, body := ResponseBody.failure "Request has no body." false },
       st0) :=
  (c7_top_level_failures env0 (some "u") (some "k") st0 reqNoBody rfl).2.1 rfl rfl rfl

/-- C10: a request that passes top-level validation (truthy environment
variables, a body, an `items` array) is always answered with HTTP status
200 and a batch body, regardless of per-item outcomes; hence status 500
can only arise from top-level errors, never from per-item failures. -/
theorem c10_status_200_when_validated (env : Env) (url key : Option String)
    (st : DBState) (req : HttpRequest) (items : List ReqItem)
    (hm : (req.method == "OPTIONS") = false) (hu : truthy url = true)
    (hk : truthy key = true) (hb : req.hasBody = true)
    (hi : req.jsonItems = Except.ok (some items)) :
    (handler env url key st req).1.status = 200 ∧
    ∃ b, (handler env url key st req).1.body = ResponseBody.batch b := by
  by_cases he : items.isEmpty = true
  · refine ⟨by simp [handler, hm, hu, hk, hb, hi, he], ?_⟩
    refine ⟨{ results := [], errors := none, success := none }, ?_⟩
    simp [handler, hm, hu, hk, hb, hi, he]
  · have he' : items.isEmpty = false := by simpa using he
    refine ⟨by simp [handler, hm, hu, hk, hb, hi, he'], ?_⟩
    refine ⟨{ results := (processLoop env st items).1,
              errors := if (processLoop env st items).2.1.isEmpty then none
                        else some (processLoop env st items).2.1,
              success := some (processLoop env st items).2.1.isEmpty }, ?_⟩
    simp [handler, hm, hu, hk, hb, hi, he']

/-- Closed instance of `c10_status_200_when_validated` on a batch with a
well-formed item. -/
theorem c10_witness :
    (handler env0 (some "u") (some "k") st0 reqOne).1.status = 200 ∧
    ∃ b, (handler env0 (some "u") (some "k") st0 reqOne).1.body =
      ResponseBody.batch b :=
  c10_status_200_when_validated env0 (some "u") (some "k") st0 reqOne
    [ReqItem.obj (some "doc1") (some "invoice")] rfl rfl rfl rfl rfl

/-- C2: for a validated request the handler returns one result object per
input item, in input order (the `i`-th result carries the `i`-th item's
presented id), and a failing item — malformed, failed in `processItem`,
or throwing — never aborts the batch: every later item still has its
result, each failure carrying a non-empty string error message. -/
theorem c2_one_result_per_item (env : Env) (url key : Option String)
    (st : DBState) (req : HttpRequest) (items : List ReqItem)
    (hm : (req.method == "OPTIONS") = false) (hu : truthy url = true)
    (hk : truthy key = true) (hb : req.hasBody = true)
    (hi : req.jsonItems = Except.ok (some items)) :
    ∃ b st2, handler env url key st req =
        ({ status := 200, body := ResponseBody.batch b }, st2) ∧
      b.results.length = items.length ∧
      ∀ i item, items.get? i = some item →
        ∃ r, b.results.get? i = some r ∧ r.id = presentedId item ∧
          (r.success = false → r.error ≠ "") := by
  by_cases he : items.isEmpty = true
  · have hnil : items = [] := by simpa [List.isEmpty_iff] using he
    subst hnil
    refine ⟨{ results := [], errors := none, success := none }, st,
      by simp [handler, hm, hu, hk, hb, hi], rfl, ?_⟩
    intro i item h
    simp at h
  · have he' : items.isEmpty = false := by simpa using he
    refine ⟨{ results := (processLoop env st items).1,
              errors := if (processLoop env st items).2.1.isEmpty then none
                        else some (processLoop env st items).2.1,
              success := some (processLoop env st items).2.1.isEmpty },
            (processLoop env st items).2.2, ?_, processLoop_length env items st, ?_⟩
    · simp [handler, hm, hu, hk, hb, hi, he']
    · intro i item h
      obtain ⟨r, hr, hid, _, herr⟩ := processLoop_get? env items st i item h
      exact ⟨r, hr, hid, herr⟩

/-- Closed instance of `c2_one_result_per_item` on a batch with a
well-formed item. -/
theorem c2_witness :
    ∃ b st2, handler env0 (some "u") (some "k") st0 reqOne =
        ({ status := 200, body := ResponseBody.batch b }, st2) ∧
      b.results.length = [ReqItem.obj (some "doc1") (some "invoice")].length ∧
      ∀ i item, [ReqItem.obj (some "doc1") (some "invoice")].get? i = some item →
        ∃ r, b.results.get? i = some r ∧ r.id = presentedId item ∧
          (r.success = false → r.error ≠ "") :=
  c2_one_result_per_item env0 (some "u") (some "k") st0 reqOne
    [ReqItem.obj (some "doc1") (some "invoice")] rfl rfl rfl rfl rfl

/-- C9: every per-item result in a batch body returned by the handler
satisfies the invariant: it succeeds exactly when its url is non-null,
and a failing result carries a non-empty error message. -/
theorem c9_result_invariant (env : Env) (url key : Option String)
    (st : DBState) (req : HttpRequest) (b : BatchPDFResult)
    (r : BatchPDFItemResult)
    (hb : (handler env url key st req).1.body = ResponseBody.batch b)
    (hr : r ∈ b.results) :
    (r.success = true ↔ r.url ≠ none) ∧ (r.success = false → r.error ≠ "") := by
  by_cases hm : (req.method == "OPTIONS") = true
  · simp [handler, hm] at hb
  · have hm' : (req.method == "OPTIONS") = false := by simpa using hm
    by_cases hu : truthy url = true
    · by_cases hk : truthy key = true
      · by_cases hbody : req.hasBody = true
        · cases hj : req.jsonItems with
          | error e => simp [handler, hm', hu, hk, hbody, hj] at hb
          | ok o =>
            cases o with
            | none => simp [handler, hm', hu, hk, hbody, hj] at hb
            | some items =>
              by_cases he : items.isEmpty = true
              · have hh : handler env url key st req =
                    ({ status := 200, body := ResponseBody.batch
                        { results := [], errors := none, success := none } }, st) := by
                  simp [handler, hm', hu, hk, hbody, hj, he]
                rw [hh] at hb
                have hb' : ResponseBody.batch
                    { results := [], errors := none, success := none } =
                    ResponseBody.batch b := hb
                obtain rfl := ResponseBody.batch.inj hb'
                simp at hr
              · have he' : items.isEmpty = false := by simpa using he
                have hh : handler env url key st req =
                    ({ status := 200, body := ResponseBody.batch
                        { results := (processLoop env st items).1,
                          errors := if (processLoop env st items).2.1.isEmpty then none
                                    else some (processLoop env st items).2.1,
                          success := some (processLoop env st items).2.1.isEmpty } },
                     (processLoop env st items).2.2) := by
                  simp [handler, hm', hu, hk, hbody, hj, he']
                rw [hh] at hb
                have hb' : ResponseBody.batch
                    { results := (processLoop env st items).1,
                      errors := if (processLoop env st items).2.1.isEmpty then none
                                else some (processLoop env st items).2.1,
                      success := some (processLoop env st items).2.1.isEmpty } =
                    ResponseBody.batch b := hb
                obtain rfl := ResponseBody.batch.inj hb'
                exact processLoop_mem_inv env items st r hr
        · have hbody' : req.hasBody = false := by simpa using hbody
          simp [handler, hm', hu, hk, hbody'] at hb
      · have hk' : truthy key = false := by simpa using hk
        simp [handler, hm', hu, hk'] at hb
    · have hu' : truthy url = false := by simpa using hu
      simp [handler, hm', hu'] at hb

/-- Closed instance of `c9_result_invariant` on the batch holding the
successful result for `doc1`. -/
theorem c9_witness :
    (({ id := "doc1", type := "invoice", success := true, error := "",
        url := some "https://cdn.example/Invoices/doc1.pdf" } :
        BatchPDFItemResult).success = true ↔
      ({ id := "doc1", type := "invoice", success := true, error := "",
         url := some "https://cdn.example/Invoices/doc1.pdf" } :
         BatchPDFItemResult).url ≠ none) ∧
    (({ id := "doc1", type := "invoice", success := true, error := "",
        url := some "https://cdn.example/Invoices/doc1.pdf" } :
        BatchPDFItemResult).success = false →
      ({ id := "doc1", type := "invoice", success := true, error := "",
         url := some "https://cdn.example/Invoices/doc1.pdf" } :
         BatchPDFItemResult).error ≠ "") :=
  c9_result_invariant env0 (some "u") (some "k") st0 reqOne
    { results := [{ id := "doc1", type := "invoice", success := true, error := "",
                    url := some "https://cdn.example/Invoices/doc1.pdf" }],
      errors := none, success := some true }
    { id := "doc1", type := "invoice", success := true, error := "",
      url := some "https://cdn.example/Invoices/doc1.pdf" }
    (by decide) (by decide)

/-- C1 (counterexample): a batch whose only item is malformed yields a
body holding a failing per-item result while the batch-level `success`
field is `some true` — the invalid-item path pushes a failure result but
no entry to the `errors` array, and `success` is computed from `errors`
alone, so `success` is not false although an item failed. -/
theorem c1_counterexample :
    ∃ b, (handler env0 (some "u") (some "k") st0 req1).1.body =
        ResponseBody.batch b ∧
      ¬((b.success = some false) ↔ ∃ r ∈ b.results, r.success = false) :=
  ⟨{ results := [{ id := "unknown", type := "unknown", success := false,
                   error := "Invalid item format (missing id or type)", url := none }],
     errors := none, success := some true },
   by decide, by decide⟩

/-- C1 (amended): for a non-empty validated batch, the batch-level
`success` is false exactly when at least one item that passed the
basic-structure validation (an object with truthy id and type) produced a
failing result; malformed items yield failure results but do not affect
batch-level `success`. -/
theorem c1_amended_batch_success (env : Env) (url key : Option String)
    (st : DBState) (req : HttpRequest) (items : List ReqItem)
    (b : BatchPDFResult) (st2 : DBState)
    (hm : (req.method == "OPTIONS") = false) (hu : truthy url = true)
    (hk : truthy key = true) (hbody : req.hasBody = true)
    (hi : req.jsonItems = Except.ok (some items))
    (hne : items.isEmpty = false)
    (hout : handler env url key st req =
      ({ status := 200, body := ResponseBody.batch b }, st2)) :
    (b.success = some false ↔
      ∃ p ∈ items.zip b.results, itemValid p.1 = true ∧ p.2.success = false) := by
  have hh : handler env url key st req =
      ({ status := 200, body := ResponseBody.batch
          { results := (processLoop env st items).1,
            errors := if (processLoop env st items).2.1.isEmpty then none
                      else some (processLoop env st items).2.1,
            success := some (processLoop env st items).2.1.isEmpty } },
       (processLoop env st items).2.2) := by
    simp [handler, hm, hu, hk, hbody, hi, hne]
  rw [hh] at hout
  have hb' : ResponseBody.batch
      { results := (processLoop env st items).1,
        errors := if (processLoop env st items).2.1.isEmpty then none
                  else some (processLoop env st items).2.1,
        success := some (processLoop env st items).2.1.isEmpty } =
      ResponseBody.batch b := congrArg (fun p => (Prod.fst p).body) hout
  obtain rfl := ResponseBody.batch.inj hb'
  have hiff := processLoop_errors_iff env items st
  simp only [Option.some.injEq]
  constructor
  · intro hfalse
    have hnenil : ¬((processLoop env st items).2.1 = []) := by
      intro hnil
      rw [hnil] at hfalse
      simp at hfalse
    have hnall : ¬∀ p ∈ items.zip (processLoop env st items).1,
        itemValid p.1 = true → p.2.success = true :=
      fun hall => hnenil (hiff.mpr hall)
    push_neg at hnall
    obtain ⟨p, hp, hv, hs⟩ := hnall
    exact ⟨p, hp, hv, by simpa using hs⟩
  · rintro ⟨p, hp, hv, hs⟩
    have hnenil : ¬((processLoop env st items).2.1 = []) := by
      intro hnil
      have := hiff.mp hnil p hp hv
      rw [hs] at this
      exact absurd this (by decide)
    cases hcase : (processLoop env st items).2.1 with
    | nil => exact absurd hcase hnenil
    | cons a l => rfl

/-- Closed instance of `c1_amended_batch_success` on the
malformed-single-item batch: `success` is `some true` and indeed no
validated item failed. -/
theorem c1_witness :
    (({ results := [{ id := "unknown", type := "unknown", success := false,
                      error := "Invalid item format (missing id or type)", url := none }],
        errors := none, success := some true } : BatchPDFResult).success = some false ↔
      ∃ p ∈ [ReqItem.nonObject].zip
          ({ results := [{ id := "unknown", type := "unknown", success := false,
                           error := "Invalid item format (missing id or type)",
                           url := none }],
             errors := none, success := some true } : BatchPDFResult).results,
        itemValid p.1 = true ∧ p.2.success = false) :=
  c1_amended_batch_success env0 (some "u") (some "k") st0 req1 [ReqItem.nonObject]
    { results := [{ id := "unknown", type := "unknown", success := false,
                    error := "Invalid item format (missing id or type)", url := none }],
      errors := none, success := some true }
    st0 rfl rfl rfl rfl rfl rfl (by decide)

end BatchPdf
